import Mathlib

/-!
Shallow embedding of the material node-graph evaluation and validation
engine of SORT (src/material/operation_node.cpp), together with the parts
of the base node/property infrastructure the operator nodes rely on
(modelled from the specification where the base-class source is not part
of the repository snapshot).

Numeric components are embedded as rationals; the C++ code uses 32-bit
floats, whose rounding is not modelled.
-/

/-- A 4-component numeric value (the C++ `MaterialPropertyValue` with
fields x, y, z, w). -/
structure MaterialPropertyValue where
  x : ℚ
  y : ℚ
  z : ℚ
  w : ℚ
  deriving DecidableEq, Repr

namespace MaterialPropertyValue

/-- Modelled from the spec: the single-float constructor
`MaterialPropertyValue(f)` broadcasts the scalar to all components
(operations on values apply component-wise, §4.3). -/
def ofFloat (f : ℚ) : MaterialPropertyValue := ⟨f, f, f, f⟩

/-- Modelled from the spec: component-wise addition (`operator+`). -/
def add (a b : MaterialPropertyValue) : MaterialPropertyValue :=
  ⟨a.x + b.x, a.y + b.y, a.z + b.z, a.w + b.w⟩

/-- Modelled from the spec: component-wise subtraction (`operator-`). -/
def sub (a b : MaterialPropertyValue) : MaterialPropertyValue :=
  ⟨a.x - b.x, a.y - b.y, a.z - b.z, a.w - b.w⟩

/-- Modelled from the spec: component-wise product of two values
(`operator*`), used by `MutiplyNode::GetNodeValue`. -/
def mul (a b : MaterialPropertyValue) : MaterialPropertyValue :=
  ⟨a.x * b.x, a.y * b.y, a.z * b.z, a.w * b.w⟩

/-- Modelled from the spec: value-times-scalar (`value * f` in the C++
code), applied component-wise. -/
def scale (a : MaterialPropertyValue) (f : ℚ) : MaterialPropertyValue :=
  ⟨a.x * f, a.y * f, a.z * f, a.w * f⟩

end MaterialPropertyValue

/-- A 3-channel color weight (the C++ `Spectrum`). -/
structure Spectrum where
  r : ℚ
  g : ℚ
  b : ℚ
  deriving DecidableEq, Repr

namespace Spectrum

/-- Modelled from the spec: `Spectrum * f`, component-wise scaling of a
weight by a scalar factor. -/
def scale (s : Spectrum) (f : ℚ) : Spectrum := ⟨s.r * f, s.g * f, s.b * f⟩

/-- Modelled from the spec: `Spectrum::IsBlack` is true exactly when the
weight is the zero color (§4.3, weight-zero short-circuit). -/
def IsBlack (s : Spectrum) : Bool := decide (s.r = 0 ∧ s.g = 0 ∧ s.b = 0)

end Spectrum

/-- The BSDF accumulator (C++ `Bsdf`), modelled from the spec as the list
of weighted lobes registered so far: each entry pairs an opaque lobe
identifier with the weight it was registered with (§3, §4.5). -/
abbrev Bsdf : Type := List (Nat × Spectrum)

/-- Node type tags (`MAT_NODE_TYPE`): modelled from the spec, which says
the classification is drawn from {Constant, Operator, BXDF} with BXDF a
flag bit distinguishable from the numeric node types (§3). -/
def MAT_NODE_BXDF : Nat := 1

/-- Operator node type tag; carries no BXDF bit. -/
def MAT_NODE_OPERATOR : Nat := 2

/-- Constant node type tag (also the implicit type of an unbound
binding); carries no BXDF bit. -/
def MAT_NODE_CONSTANT : Nat := 4

mutual

/-- A material node: the concrete node variants of
src/material/operation_node.cpp (the operator node library), plus a
constant value node and an opaque BXDF-producing leaf, both modelled from
the spec (§2, §4.2). The gamma conversion nodes are value-only leaves of
the same shape as `oneMinus` and are not needed by any property proved
here, so they are omitted. -/
inductive MaterialNode : Type where
  | constant (v : MaterialPropertyValue) : MaterialNode
  | bxdf (id : Nat) : MaterialNode
  | add (src0 src1 : MaterialNodeProperty) : MaterialNode
  | oneMinus (src : MaterialNodeProperty) : MaterialNode
  | lerp (src0 src1 factor : MaterialNodeProperty) : MaterialNode
  | blend (src0 src1 factor0 factor1 : MaterialNodeProperty) : MaterialNode
  | multiply (src0 src1 : MaterialNodeProperty) : MaterialNode
  | normalDecode (src : MaterialNodeProperty) : MaterialNode

/-- A property binding (C++ `MaterialNodeProperty`): either unbound, in
which case it holds only its literal value, or bound to another node
(`node` non-null in the C++ code) while still carrying a literal value
slot. -/
inductive MaterialNodeProperty : Type where
  | unbound (value : MaterialPropertyValue) : MaterialNodeProperty
  | bound (node : MaterialNode) (value : MaterialPropertyValue) : MaterialNodeProperty

end

/-- `getNodeType`: constant per variant; operator nodes report the
Operator tag, the BXDF leaf reports the BXDF-flagged tag (spec §4.2). -/
def getNodeType : MaterialNode → Nat
  | .constant _ => MAT_NODE_CONSTANT
  | .bxdf _ => MAT_NODE_BXDF
  | _ => MAT_NODE_OPERATOR

mutual

/-- Pull evaluation, `GetNodeValue` of src/material/operation_node.cpp:
  * `AddNode` returns `src0 + src1`;
  * `SORTNodeOneMinus` returns `MaterialPropertyValue(1) - src`;
  * `LerpNode` reads `f = factor.x` and returns `src0*(1-f) + src1*f`;
  * `BlendNode` reads `f0 = factor0.x`, `f1 = factor1.x` and returns
    `src0*f0 + src1*f1`;
  * `MutiplyNode` returns the component-wise product `src0 * src1`;
  * `NormalDecoderNode` returns `(2*x - 1, z, 2*y - 1, 0)`.
The constant node returns its stored value and the BXDF leaf (whose pull
evaluation the spec calls a caller contract violation, §4.2) returns the
base-class default zero value; both are modelled from the spec. -/
def GetNodeValue : MaterialNode → MaterialPropertyValue
  | .constant v => v
  | .bxdf _ => MaterialPropertyValue.ofFloat 0
  | .add s0 s1 => (GetPropertyValue s0).add (GetPropertyValue s1)
  | .oneMinus s => (MaterialPropertyValue.ofFloat 1).sub (GetPropertyValue s)
  | .lerp s0 s1 fp =>
      ((GetPropertyValue s0).scale (1 - (GetPropertyValue fp).x)).add
        ((GetPropertyValue s1).scale ((GetPropertyValue fp).x))
  | .blend s0 s1 f0p f1p =>
      ((GetPropertyValue s0).scale ((GetPropertyValue f0p).x)).add
        ((GetPropertyValue s1).scale ((GetPropertyValue f1p).x))
  | .multiply s0 s1 => (GetPropertyValue s0).mul (GetPropertyValue s1)
  | .normalDecode s =>
      let tmp := GetPropertyValue s
      ⟨2 * tmp.x - 1, tmp.z, 2 * tmp.y - 1, 0⟩
termination_by structural n => n

/-- Modelled from the spec (§4.1 `resolve_value`):
`MaterialNodeProperty::GetPropertyValue` returns the referenced node's
pull evaluation when the binding references a node, else its literal
value. -/
def GetPropertyValue : MaterialNodeProperty → MaterialPropertyValue
  | .unbound v => v
  | .bound n _ => GetNodeValue n
termination_by structural p => p

end

/-- `referencedType` (spec §4.1, and the inline pattern
`prop.node ? prop.node->getNodeType() : MAT_NODE_CONSTANT` of the
source): the referenced node's type tag, or the Constant tag when the
binding references no node. -/
def referencedType : MaterialNodeProperty → Nat
  | .unbound _ => MAT_NODE_CONSTANT
  | .bound n _ => getNodeType n

mutual

/-- Push evaluation, `UpdateBSDF` of src/material/operation_node.cpp:
  * `LerpNode`: returns at once on a black weight; otherwise reads
    `f = factor.x` and recurses into each bound child, `src0` with
    `weight*(1-f)` and `src1` with `weight*f`;
  * `BlendNode`: returns at once on a black weight; otherwise reads
    `f0 = factor0.x` and `f1 = factor1.y` (the SECOND component of the
    Factor2 value, exactly as the source line
    `float f1 = factor1.GetPropertyValue(bsdf).y;` does) and recurses
    into each bound child, `src0` with `weight*f0` and `src1` with
    `weight*f1`;
  * `MutiplyNode`: returns at once on a black weight; otherwise computes
    each child's type tag (unbound counting as Constant) and, when the
    first (else the second) tag carries the BXDF flag, recurses into that
    child with the weight scaled by the other child's resolved first
    component.  In the source the recursive call dereferences the child
    pointer unguarded; a BXDF-flagged tag can only come from a bound
    child, so routing it through `pushChild` is behaviour-equal.
The BXDF leaf registers its lobe with the given weight (modelled from
spec §4.5, with the §4.3 weight-zero short-circuit), and the value-only
nodes do not take part in push evaluation (modelled from spec §4.2: they
leave the accumulator untouched). -/
def UpdateBSDF : MaterialNode → Bsdf → Spectrum → Bsdf
  | .bxdf id, bsdf, weight =>
      if weight.IsBlack then bsdf else bsdf ++ [(id, weight)]
  | .lerp s0 s1 fp, bsdf, weight =>
      if weight.IsBlack then bsdf
      else
        let f := (GetPropertyValue fp).x
        pushChild s1 (pushChild s0 bsdf (weight.scale (1 - f)))
          (weight.scale f)
  | .blend s0 s1 f0p f1p, bsdf, weight =>
      if weight.IsBlack then bsdf
      else
        let f0 := (GetPropertyValue f0p).x
        let f1 := (GetPropertyValue f1p).y
        pushChild s1 (pushChild s0 bsdf (weight.scale f0))
          (weight.scale f1)
  | .multiply s0 s1, bsdf, weight =>
      if weight.IsBlack then bsdf
      else
        if referencedType s0 &&& MAT_NODE_BXDF ≠ 0 then
          pushChild s0 bsdf (weight.scale ((GetPropertyValue s1).x))
        else if referencedType s1 &&& MAT_NODE_BXDF ≠ 0 then
          pushChild s1 bsdf (weight.scale ((GetPropertyValue s0).x))
        else bsdf
  | _, bsdf, _ => bsdf
termination_by structural n => n

/-- `pushChild` captures the guarded recursion pattern
`if( prop.node ) prop.node->UpdateBSDF( bsdf , w )` of the routers: a
bound child receives the weighted recursive call, an unbound child is
skipped and the accumulator is returned unchanged. -/
def pushChild : MaterialNodeProperty → Bsdf → Spectrum → Bsdf
  | .unbound _, bsdf, _ => bsdf
  | .bound n _, bsdf, w => UpdateBSDF n bsdf w
termination_by structural p => p

end

/-- A property binding passes the type-consistency test of
`OperatorNode::CheckValidation` when its referenced type carries no BXDF
flag: the loop body `if( type & MAT_NODE_BXDF ) m_node_valid = false;`
leaves validity untouched exactly when this holds. -/
def propOk (p : MaterialNodeProperty) : Bool :=
  decide (referencedType p &&& MAT_NODE_BXDF = 0)

mutual

/-- `CheckValidation`.  For the operator nodes this is
`OperatorNode::CheckValidation` of src/material/operation_node.cpp: the
base result ANDed with the per-binding BXDF test (the source assigns the
base result, then scans `m_props` and flips validity to false at the
first BXDF-flagged referenced type; the break leaves the same value as
testing every binding).  The base `MaterialNode::CheckValidation` is
modelled from the spec (§4.2, §4.4): it recurses into every referenced
node and a node is valid only if all its referenced children are.  The
constant and BXDF leaves have no bindings of their own here, so their
validation trivially succeeds. -/
def CheckValidation : MaterialNode → Bool
  | .constant _ => true
  | .bxdf _ => true
  | .add s0 s1 =>
      (childValid s0 && childValid s1) && (propOk s0 && propOk s1)
  | .oneMinus s => childValid s && propOk s
  | .lerp s0 s1 fp =>
      (childValid s0 && childValid s1 && childValid fp) &&
        (propOk s0 && propOk s1 && propOk fp)
  | .blend s0 s1 f0p f1p =>
      (childValid s0 && childValid s1 && childValid f0p && childValid f1p) &&
        (propOk s0 && propOk s1 && propOk f0p && propOk f1p)
  | .multiply s0 s1 =>
      (childValid s0 && childValid s1) && (propOk s0 && propOk s1)
  | .normalDecode s => childValid s && propOk s
termination_by structural n => n

/-- Modelled from the spec (§4.2): the recursive step of the base
`MaterialNode::CheckValidation` — an unbound binding is trivially valid,
a bound one is valid when its referenced node validates. -/
def childValid : MaterialNodeProperty → Bool
  | .unbound _ => true
  | .bound n _ => CheckValidation n
termination_by structural p => p

end

mutual

/-- A node resolves (possibly transitively through Operator or Constant
indirection) to a BXDF-typed node when some binding of it references a
node that is BXDF-flagged or itself so resolves. -/
def resolvesToBXDF : MaterialNode → Bool
  | .constant _ => false
  | .bxdf _ => false
  | .add s0 s1 => propResolvesBXDF s0 || propResolvesBXDF s1
  | .oneMinus s => propResolvesBXDF s
  | .lerp s0 s1 fp =>
      propResolvesBXDF s0 || propResolvesBXDF s1 || propResolvesBXDF fp
  | .blend s0 s1 f0p f1p =>
      propResolvesBXDF s0 || propResolvesBXDF s1 ||
        propResolvesBXDF f0p || propResolvesBXDF f1p
  | .multiply s0 s1 => propResolvesBXDF s0 || propResolvesBXDF s1
  | .normalDecode s => propResolvesBXDF s
termination_by structural n => n

/-- A binding resolves to a BXDF-typed node when it references a node
that is BXDF-flagged or itself resolves to one; an unbound binding never
does. -/
def propResolvesBXDF : MaterialNodeProperty → Bool
  | .unbound _ => false
  | .bound n _ =>
      decide (getNodeType n &&& MAT_NODE_BXDF ≠ 0) || resolvesToBXDF n
termination_by structural p => p

end

/-- The `m_props` table of each node, as registered by the node
constructors of src/material/operation_node.cpp (`Color1`/`Color2` for
Add, Blend, Lerp and Multiply sources, `Factor`/`Factor1`/`Factor2` for
the mix factors, `Color` for the single-input nodes). -/
def props : MaterialNode → List MaterialNodeProperty
  | .constant _ => []
  | .bxdf _ => []
  | .add s0 s1 => [s0, s1]
  | .oneMinus s => [s]
  | .lerp s0 s1 fp => [s0, s1, fp]
  | .blend s0 s1 f0p f1p => [s0, s1, f0p, f1p]
  | .multiply s0 s1 => [s0, s1]
  | .normalDecode s => [s]

/-- True when a binding references no node (`prop.node == nullptr`). -/
def isUnbound : MaterialNodeProperty → Bool
  | .unbound _ => true
  | .bound _ _ => false

/-- True when every binding of the node references no node. -/
def allUnbound (n : MaterialNode) : Bool := (props n).all isUnbound

/-- True for the Operator node variants (the subclasses of
`OperatorNode`). -/
def isOperator (n : MaterialNode) : Bool :=
  decide (getNodeType n = MAT_NODE_OPERATOR)

/-- True for the router variants: Lerp, Blend and Multiply, the operator
nodes that take part in push evaluation (spec §4.3). -/
def isRouter : MaterialNode → Bool
  | .lerp _ _ _ => true
  | .blend _ _ _ _ => true
  | .multiply _ _ => true
  | _ => false

/-- The end-to-end example graph of the spec (§8):
`Lerp(src0=ConstantColor(1,0,0), src1=ConstantColor(0,1,0),
factor=ConstantScalar(0.3))`. -/
def lerpEndToEnd : MaterialNode :=
  .lerp (.bound (.constant ⟨1, 0, 0, 0⟩) ⟨0, 0, 0, 0⟩)
    (.bound (.constant ⟨0, 1, 0, 0⟩) ⟨0, 0, 0, 0⟩)
    (.bound (.constant ⟨3/10, 0, 0, 0⟩) ⟨0, 0, 0, 0⟩)

/-- C5: for every Lerp node, pull evaluation returns
`src0*(1-f) + src1*f` with `f` the first component of the Factor
property's resolved value; and on the end-to-end graph
`Lerp(ConstantColor(1,0,0), ConstantColor(0,1,0), ConstantScalar(0.3))`
it returns `(0.7, 0.3, 0.0)`. -/
theorem lerp_pull_value :
    (∀ s0 s1 fp : MaterialNodeProperty,
      GetNodeValue (.lerp s0 s1 fp) =
        ((GetPropertyValue s0).scale (1 - (GetPropertyValue fp).x)).add
          ((GetPropertyValue s1).scale ((GetPropertyValue fp).x))) ∧
    (GetNodeValue lerpEndToEnd).x = 7/10 ∧
    (GetNodeValue lerpEndToEnd).y = 3/10 ∧
    (GetNodeValue lerpEndToEnd).z = 0 := by
  refine ⟨fun s0 s1 fp => rfl, ?_, ?_, ?_⟩ <;>
    norm_num [lerpEndToEnd, GetNodeValue, GetPropertyValue,
      MaterialPropertyValue.scale, MaterialPropertyValue.add]

/-- C8: applying the OneMinus node's pull evaluation twice returns the
input: the node computes `MaterialPropertyValue(1) - src` component-wise,
and `1 - (1 - x) = x` in every component. -/
theorem oneminus_involution (v d : MaterialPropertyValue) :
    GetNodeValue (.oneMinus (.bound (.oneMinus (.unbound v)) d)) = v := by
  cases v with
  | mk x y z w =>
    simp [GetNodeValue, GetPropertyValue, MaterialPropertyValue.sub,
      MaterialPropertyValue.ofFloat]

/-- C9: NormalDecode's pull evaluation returns
`(2*a.x - 1, a.z, 2*a.y - 1, 0)` for every input, and on input
`(0.5, 0.5, 1.0)` it yields `(0.0, 1.0, 0.0, 0.0)`. -/
theorem normal_decode_value :
    (∀ s : MaterialNodeProperty,
      GetNodeValue (.normalDecode s) =
        ⟨2 * (GetPropertyValue s).x - 1, (GetPropertyValue s).z,
          2 * (GetPropertyValue s).y - 1, 0⟩) ∧
    GetNodeValue (.normalDecode (.unbound ⟨1/2, 1/2, 1, 0⟩)) =
      ⟨0, 1, 0, 0⟩ := by
  refine ⟨fun s => rfl, ?_⟩
  norm_num [GetNodeValue, GetPropertyValue]

/-- C3: push evaluation on any router node (Lerp, Blend, Multiply) with a
black weight returns the accumulator unchanged, for every graph and every
accumulator state. -/
theorem router_zero_weight_noop (n : MaterialNode) (bsdf : Bsdf)
    (w : Spectrum) (hr : isRouter n = true) (hb : w.IsBlack = true) :
    UpdateBSDF n bsdf w = bsdf := by
  cases n <;> simp [isRouter] at hr <;> simp [UpdateBSDF, hb]

/-- A concrete router used by the zero-weight witness. -/
def routerZeroEx : MaterialNode :=
  .lerp (.bound (.bxdf 1) ⟨0, 0, 0, 0⟩) (.bound (.bxdf 2) ⟨0, 0, 0, 0⟩)
    (.unbound ⟨1/2, 0, 0, 0⟩)

/-- C3 witness: the zero-weight short-circuit on a concrete Lerp router
with bound BXDF children and a non-empty accumulator. -/
theorem router_zero_weight_noop_witness :
    isRouter routerZeroEx = true ∧
    Spectrum.IsBlack ⟨0, 0, 0⟩ = true ∧
    UpdateBSDF routerZeroEx [(3, ⟨1, 1, 1⟩)] ⟨0, 0, 0⟩ =
      [(3, ⟨1, 1, 1⟩)] :=
  ⟨rfl, by simp [Spectrum.IsBlack],
    router_zero_weight_noop routerZeroEx [(3, ⟨1, 1, 1⟩)] ⟨0, 0, 0⟩ rfl
      (by simp [Spectrum.IsBlack])⟩

/-- C6: push evaluation on a Lerp node with a nonzero weight sends
`weight*(1-f)` into the first child and `weight*f` into the second, with
`f` the first component of the Factor value, each call going through the
bound-child guard; and an unbound child leaves the accumulator untouched. -/
theorem lerp_push_weights (s0 s1 fp : MaterialNodeProperty) (bsdf : Bsdf)
    (w : Spectrum) (h : w.IsBlack = false) :
    UpdateBSDF (.lerp s0 s1 fp) bsdf w =
      pushChild s1
        (pushChild s0 bsdf (w.scale (1 - (GetPropertyValue fp).x)))
        (w.scale ((GetPropertyValue fp).x)) ∧
    (∀ (v : MaterialPropertyValue) (b : Bsdf) (w0 : Spectrum),
      pushChild (.unbound v) b w0 = b) := by
  exact ⟨by simp [UpdateBSDF, h], fun v b w0 => rfl⟩

/-- C6 witness: a concrete Lerp with two bound BXDF children and factor
0, pushed with the all-ones weight. -/
theorem lerp_push_weights_witness :
    Spectrum.IsBlack ⟨1, 1, 1⟩ = false ∧
    (UpdateBSDF (.lerp (.bound (.bxdf 1) ⟨0, 0, 0, 0⟩)
        (.bound (.bxdf 2) ⟨0, 0, 0, 0⟩) (.unbound ⟨0, 0, 0, 0⟩)) [] ⟨1, 1, 1⟩ =
      pushChild (.bound (.bxdf 2) ⟨0, 0, 0, 0⟩)
        (pushChild (.bound (.bxdf 1) ⟨0, 0, 0, 0⟩) []
          (Spectrum.scale ⟨1, 1, 1⟩
            (1 - (GetPropertyValue (.unbound ⟨0, 0, 0, 0⟩)).x)))
        (Spectrum.scale ⟨1, 1, 1⟩
          ((GetPropertyValue (.unbound ⟨0, 0, 0, 0⟩)).x)) ∧
      (∀ (v : MaterialPropertyValue) (b : Bsdf) (w0 : Spectrum),
        pushChild (.unbound v) b w0 = b)) :=
  ⟨by simp [Spectrum.IsBlack],
    lerp_push_weights (.bound (.bxdf 1) ⟨0, 0, 0, 0⟩)
      (.bound (.bxdf 2) ⟨0, 0, 0, 0⟩) (.unbound ⟨0, 0, 0, 0⟩) [] ⟨1, 1, 1⟩
      (by simp [Spectrum.IsBlack])⟩

/-- C10: push evaluation on a Blend node with a nonzero weight skips an
unbound child without failing, while a bound sibling still receives its
weighted recursive call (with the factors the code reads: the first
component of Factor1 for the first child, the second component of Factor2
for the second child). -/
theorem blend_push_unbound_safe (v0 v1 d0 d1 : MaterialPropertyValue)
    (n0 n1 : MaterialNode) (f0p f1p : MaterialNodeProperty) (bsdf : Bsdf)
    (w : Spectrum) (h : w.IsBlack = false) :
    (UpdateBSDF (.blend (.unbound v0) (.unbound v1) f0p f1p) bsdf w =
      bsdf) ∧
    (UpdateBSDF (.blend (.unbound v0) (.bound n1 d1) f0p f1p) bsdf w =
      UpdateBSDF n1 bsdf (w.scale ((GetPropertyValue f1p).y))) ∧
    (UpdateBSDF (.blend (.bound n0 d0) (.unbound v1) f0p f1p) bsdf w =
      UpdateBSDF n0 bsdf (w.scale ((GetPropertyValue f0p).x))) := by
  refine ⟨?_, ?_, ?_⟩ <;> simp [UpdateBSDF, pushChild, h]

/-- C10 witness: a concrete Blend with the first child unbound and the
second bound to a BXDF leaf, pushed with the all-ones weight. -/
theorem blend_push_unbound_safe_witness :
    Spectrum.IsBlack ⟨1, 1, 1⟩ = false ∧
    UpdateBSDF (.blend (.unbound ⟨0, 0, 0, 0⟩) (.bound (.bxdf 2) ⟨0, 0, 0, 0⟩)
        (.unbound ⟨1, 0, 0, 0⟩) (.unbound ⟨0, 1, 0, 0⟩)) [] ⟨1, 1, 1⟩ =
      UpdateBSDF (.bxdf 2) []
        (Spectrum.scale ⟨1, 1, 1⟩
          ((GetPropertyValue (.unbound ⟨0, 1, 0, 0⟩)).y)) :=
  ⟨by simp [Spectrum.IsBlack],
    (blend_push_unbound_safe ⟨0, 0, 0, 0⟩ ⟨0, 0, 0, 0⟩ ⟨0, 0, 0, 0⟩
      ⟨0, 0, 0, 0⟩ (.bxdf 1) (.bxdf 2) (.unbound ⟨1, 0, 0, 0⟩)
      (.unbound ⟨0, 1, 0, 0⟩) [] ⟨1, 1, 1⟩ (by simp [Spectrum.IsBlack])).2.1⟩

/-- C4: push evaluation on a Multiply node with a nonzero weight routes
by the children's type tags (an unbound child counting as Constant): with
exactly one BXDF-typed child it recurses only into that child, the weight
scaled by the other child's resolved first component; with no BXDF-typed
child it leaves the accumulator untouched. -/
theorem multiply_push_routing (s0 s1 : MaterialNodeProperty) (bsdf : Bsdf)
    (w : Spectrum) (h : w.IsBlack = false) :
    ((referencedType s0 &&& MAT_NODE_BXDF ≠ 0) →
      (referencedType s1 &&& MAT_NODE_BXDF = 0) →
      UpdateBSDF (.multiply s0 s1) bsdf w =
        pushChild s0 bsdf (w.scale ((GetPropertyValue s1).x))) ∧
    ((referencedType s0 &&& MAT_NODE_BXDF = 0) →
      (referencedType s1 &&& MAT_NODE_BXDF ≠ 0) →
      UpdateBSDF (.multiply s0 s1) bsdf w =
        pushChild s1 bsdf (w.scale ((GetPropertyValue s0).x))) ∧
    ((referencedType s0 &&& MAT_NODE_BXDF = 0) →
      (referencedType s1 &&& MAT_NODE_BXDF = 0) →
      UpdateBSDF (.multiply s0 s1) bsdf w = bsdf) := by
  refine ⟨?_, ?_, ?_⟩ <;> intro h0 h1 <;> simp [UpdateBSDF, h, h0, h1]

/-- C4 witness: a concrete Multiply with a BXDF first child and an
unbound literal second child, pushed with the all-ones weight. -/
theorem multiply_push_routing_witness :
    Spectrum.IsBlack ⟨1, 1, 1⟩ = false ∧
    (referencedType (.bound (.bxdf 3) ⟨0, 0, 0, 0⟩) &&& MAT_NODE_BXDF ≠ 0) ∧
    (referencedType (.unbound ⟨2, 0, 0, 0⟩) &&& MAT_NODE_BXDF = 0) ∧
    UpdateBSDF (.multiply (.bound (.bxdf 3) ⟨0, 0, 0, 0⟩)
        (.unbound ⟨2, 0, 0, 0⟩)) [] ⟨1, 1, 1⟩ =
      pushChild (.bound (.bxdf 3) ⟨0, 0, 0, 0⟩) []
        (Spectrum.scale ⟨1, 1, 1⟩
          ((GetPropertyValue (.unbound ⟨2, 0, 0, 0⟩)).x)) :=
  ⟨by simp [Spectrum.IsBlack], by decide, by decide,
    (multiply_push_routing (.bound (.bxdf 3) ⟨0, 0, 0, 0⟩)
      (.unbound ⟨2, 0, 0, 0⟩) [] ⟨1, 1, 1⟩
      (by simp [Spectrum.IsBlack])).1 (by decide) (by decide)⟩

/-- The Blend pull-value formula as the specification's table words it:
both terms scaled by the same factor, the first component of the Factor1
property's resolved value (`a*f0 + b*f0`).  Stated here only to be
compared with the source formula, which scales the second term by the
first component of the Factor2 value instead. -/
def BlendValueSharedFactor (s0 s1 f0p : MaterialNodeProperty) :
    MaterialPropertyValue :=
  ((GetPropertyValue s0).scale ((GetPropertyValue f0p).x)).add
    ((GetPropertyValue s1).scale ((GetPropertyValue f0p).x))

/-- The Blend node used as the C1 counterexample: Factor1 resolves to 0,
Factor2 to 1, the second color to the all-ones value. -/
def blendPullCexNode : MaterialNode :=
  .blend (.unbound ⟨0, 0, 0, 0⟩) (.unbound ⟨1, 1, 1, 1⟩)
    (.unbound ⟨0, 0, 0, 0⟩) (.unbound ⟨1, 0, 0, 0⟩)

/-- C1 counterexample: on a Blend node with Factor1 = 0 and Factor2 = 1,
pull evaluation returns the second color unscaled, while the claimed
shared-factor formula returns zero — the two formulas disagree. -/
theorem blend_pull_shared_factor_cex :
    GetNodeValue blendPullCexNode = ⟨1, 1, 1, 1⟩ ∧
    BlendValueSharedFactor (.unbound ⟨0, 0, 0, 0⟩) (.unbound ⟨1, 1, 1, 1⟩)
      (.unbound ⟨0, 0, 0, 0⟩) = ⟨0, 0, 0, 0⟩ ∧
    GetNodeValue blendPullCexNode ≠
      BlendValueSharedFactor (.unbound ⟨0, 0, 0, 0⟩) (.unbound ⟨1, 1, 1, 1⟩)
        (.unbound ⟨0, 0, 0, 0⟩) := by
  refine ⟨?_, ?_, ?_⟩ <;>
    norm_num [blendPullCexNode, BlendValueSharedFactor, GetNodeValue,
      GetPropertyValue, MaterialPropertyValue.scale, MaterialPropertyValue.add]

/-- C1 amended: for every Blend node, pull evaluation returns
`src0*f0 + src1*f1` where `f0` is the first component of the Factor1
value and `f1` is the first component of the Factor2 value — two
independent factors, not a shared one. -/
theorem blend_pull_two_factors (s0 s1 f0p f1p : MaterialNodeProperty) :
    GetNodeValue (.blend s0 s1 f0p f1p) =
      ((GetPropertyValue s0).scale ((GetPropertyValue f0p).x)).add
        ((GetPropertyValue s1).scale ((GetPropertyValue f1p).x)) := rfl

/-- The Blend node at the C2 failing input: the second color bound to a
BXDF leaf, Factor1 = 1 and Factor2 resolving to (1/5, 4/5, 0, 0), whose
first and second components differ. -/
def blendPushBugNode : MaterialNode :=
  .blend (.unbound ⟨0, 0, 0, 0⟩) (.bound (.bxdf 7) ⟨0, 0, 0, 0⟩)
    (.unbound ⟨1, 0, 0, 0⟩) (.unbound ⟨1/5, 4/5, 0, 0⟩)

/-- C2: evaluation of the source at the failing input.  Pushing the
all-ones weight through this Blend node registers the BXDF lobe with
weight (4/5, 4/5, 4/5) — the weight scaled by the SECOND component of the
Factor2 value, as the source line
`float f1 = factor1.GetPropertyValue(bsdf).y;` reads it — and not with
the weight scaled by the first component (1/5), which is what the claim
(and the same node's own pull evaluation, which reads `factor1...x`)
would give. -/
theorem blend_push_second_component_eval :
    UpdateBSDF blendPushBugNode [] ⟨1, 1, 1⟩ = [(7, ⟨4/5, 4/5, 4/5⟩)] ∧
    UpdateBSDF blendPushBugNode [] ⟨1, 1, 1⟩ ≠
      [(7, Spectrum.scale ⟨1, 1, 1⟩
        ((GetPropertyValue (.unbound ⟨1/5, 4/5, 0, 0⟩)).x))] := by
  constructor <;>
    norm_num [blendPushBugNode, UpdateBSDF, pushChild, GetPropertyValue,
      Spectrum.scale, Spectrum.IsBlack]

mutual

/-- Helper for C7: a node that resolves (possibly transitively) to a
BXDF-typed node through some binding fails validation. -/
theorem resolvesToBXDF_invalid :
    ∀ n : MaterialNode, resolvesToBXDF n = true → CheckValidation n = false
  | .constant _, h => by simp [resolvesToBXDF] at h
  | .bxdf _, h => by simp [resolvesToBXDF] at h
  | .add s0 s1, h => by
      simp only [resolvesToBXDF, Bool.or_eq_true] at h
      rcases h with h | h
      · rcases propResolvesBXDF_invalid s0 h with h2 | h2 <;>
          simp [CheckValidation, h2]
      · rcases propResolvesBXDF_invalid s1 h with h2 | h2 <;>
          simp [CheckValidation, h2]
  | .oneMinus s, h => by
      simp only [resolvesToBXDF] at h
      rcases propResolvesBXDF_invalid s h with h2 | h2 <;>
        simp [CheckValidation, h2]
  | .lerp s0 s1 fp, h => by
      simp only [resolvesToBXDF, Bool.or_eq_true] at h
      rcases h with (h | h) | h
      · rcases propResolvesBXDF_invalid s0 h with h2 | h2 <;>
          simp [CheckValidation, h2]
      · rcases propResolvesBXDF_invalid s1 h with h2 | h2 <;>
          simp [CheckValidation, h2]
      · rcases propResolvesBXDF_invalid fp h with h2 | h2 <;>
          simp [CheckValidation, h2]
  | .blend s0 s1 f0p f1p, h => by
      simp only [resolvesToBXDF, Bool.or_eq_true] at h
      rcases h with ((h | h) | h) | h
      · rcases propResolvesBXDF_invalid s0 h with h2 | h2 <;>
          simp [CheckValidation, h2]
      · rcases propResolvesBXDF_invalid s1 h with h2 | h2 <;>
          simp [CheckValidation, h2]
      · rcases propResolvesBXDF_invalid f0p h with h2 | h2 <;>
          simp [CheckValidation, h2]
      · rcases propResolvesBXDF_invalid f1p h with h2 | h2 <;>
          simp [CheckValidation, h2]
  | .multiply s0 s1, h => by
      simp only [resolvesToBXDF, Bool.or_eq_true] at h
      rcases h with h | h
      · rcases propResolvesBXDF_invalid s0 h with h2 | h2 <;>
          simp [CheckValidation, h2]
      · rcases propResolvesBXDF_invalid s1 h with h2 | h2 <;>
          simp [CheckValidation, h2]
  | .normalDecode s, h => by
      simp only [resolvesToBXDF] at h
      rcases propResolvesBXDF_invalid s h with h2 | h2 <;>
        simp [CheckValidation, h2]

/-- Helper for C7: a binding that resolves to a BXDF-typed node either
fails the type-consistency test directly or references an invalid node. -/
theorem propResolvesBXDF_invalid :
    ∀ p : MaterialNodeProperty, propResolvesBXDF p = true →
      childValid p = false ∨ propOk p = false
  | .unbound _, h => by simp [propResolvesBXDF] at h
  | .bound n d, h => by
      simp only [propResolvesBXDF, Bool.or_eq_true, decide_eq_true_eq] at h
      rcases h with h | h
      · right
        simp [propOk, referencedType, h]
      · left
        simpa [childValid] using resolvesToBXDF_invalid n h

end

/-- Helper for C7: a node all of whose bindings reference no node
validates successfully — an unbound binding counts as Constant and never
trips the BXDF rejection. -/
theorem allUnbound_valid :
    ∀ n : MaterialNode, allUnbound n = true → CheckValidation n = true := by
  intro n h
  cases n with
  | constant v => rfl
  | bxdf i => rfl
  | add s0 s1 =>
      cases s0 <;> cases s1 <;>
        simp_all [allUnbound, props, isUnbound, CheckValidation, childValid,
          propOk, referencedType, MAT_NODE_CONSTANT, MAT_NODE_BXDF]
  | oneMinus s =>
      cases s <;>
        simp_all [allUnbound, props, isUnbound, CheckValidation, childValid,
          propOk, referencedType, MAT_NODE_CONSTANT, MAT_NODE_BXDF]
  | lerp s0 s1 fp =>
      cases s0 <;> cases s1 <;> cases fp <;>
        simp_all [allUnbound, props, isUnbound, CheckValidation, childValid,
          propOk, referencedType, MAT_NODE_CONSTANT, MAT_NODE_BXDF]
  | blend s0 s1 f0p f1p =>
      cases s0 <;> cases s1 <;> cases f0p <;> cases f1p <;>
        simp_all [allUnbound, props, isUnbound, CheckValidation, childValid,
          propOk, referencedType, MAT_NODE_CONSTANT, MAT_NODE_BXDF]
  | multiply s0 s1 =>
      cases s0 <;> cases s1 <;>
        simp_all [allUnbound, props, isUnbound, CheckValidation, childValid,
          propOk, referencedType, MAT_NODE_CONSTANT, MAT_NODE_BXDF]
  | normalDecode s =>
      cases s <;>
        simp_all [allUnbound, props, isUnbound, CheckValidation, childValid,
          propOk, referencedType, MAT_NODE_CONSTANT, MAT_NODE_BXDF]

/-- C7: operator-node validation rejects, possibly transitively through
the recursive validation of its children, every node whose bindings
resolve to a BXDF-typed node, and a node whose bindings all reference no
node (each counting as Constant) is never rejected. -/
theorem operator_validation_rejects_bxdf :
    (∀ n : MaterialNode, isOperator n = true → resolvesToBXDF n = true →
      CheckValidation n = false) ∧
    (∀ n : MaterialNode, isOperator n = true → allUnbound n = true →
      CheckValidation n = true) :=
  ⟨fun n _ h => resolvesToBXDF_invalid n h,
    fun n _ h => allUnbound_valid n h⟩

/-- An operator graph whose binding resolves to a BXDF node only through
an intermediate operator node: OneMinus -> Lerp -> BXDF. -/
def validationCexNode : MaterialNode :=
  .oneMinus (.bound
    (.lerp (.bound (.bxdf 4) ⟨0, 0, 0, 0⟩) (.unbound ⟨0, 0, 0, 0⟩)
      (.unbound ⟨1/2, 0, 0, 0⟩)) ⟨0, 0, 0, 0⟩)

/-- An operator node with every binding unbound. -/
def validationOkNode : MaterialNode :=
  .add (.unbound ⟨1, 2, 3, 0⟩) (.unbound ⟨4, 5, 6, 0⟩)

/-- C7 witness: the transitive rejection on a concrete OneMinus node
whose input chains through a Lerp to a BXDF leaf, and the acceptance of a
concrete Add node with only unbound (Constant) bindings. -/
theorem operator_validation_rejects_bxdf_witness :
    (isOperator validationCexNode = true ∧
      resolvesToBXDF validationCexNode = true ∧
      CheckValidation validationCexNode = false) ∧
    (isOperator validationOkNode = true ∧
      allUnbound validationOkNode = true ∧
      CheckValidation validationOkNode = true) :=
  ⟨⟨rfl, rfl,
      operator_validation_rejects_bxdf.1 validationCexNode rfl rfl⟩,
    ⟨rfl, rfl,
      operator_validation_rejects_bxdf.2 validationOkNode rfl rfl⟩⟩
